import Mathlib

/-!
Verification of the transaction extraction-and-computation pipeline of
`src/components/InvoiceForm.tsx` (a gold-trading invoice entry component).

JavaScript numbers are modelled as rationals; `NaN` is modelled by `none`
in `Option ℚ` (the file never produces infinities on the verified paths).
A string-typed numeric form field is modelled by `FormStr`, which records
exactly the information the source inspects about such a string: whether it
is the empty string, and the result of JavaScript `parseFloat` on it
(a number, or `NaN` for a non-empty string with no numeric prefix).
-/

/-- Transaction type enum (`TransactionType` in `../types`): `'PURCHASE' | 'SALE'`. -/
inductive TransactionType where
  | PURCHASE
  | SALE
deriving DecidableEq, Repr

/-- The component's mode toggle: `'MANUAL' | 'UPLOAD'` (line 16). -/
inductive Mode where
  | MANUAL
  | UPLOAD
deriving DecidableEq, Repr

/-- A string used as a numeric form field, abstracted by what the source
observes of it: `empty` is the empty string `""`; `numeric q` is a non-empty
string on which JavaScript `parseFloat` returns the number `q` (e.g. `"6500"`,
`"0"`, `"5abc"`); `nonNumeric` is a non-empty string on which `parseFloat`
returns `NaN` (e.g. `"abc"`, `" "`). -/
inductive FormStr where
  | empty
  | numeric (q : ℚ)
  | nonNumeric
deriving DecidableEq, Repr

namespace FormStr

/-- JavaScript `parseFloat` on the field string: `none` models `NaN`. -/
def parseFloat : FormStr → Option ℚ
  | .empty => none
  | .numeric q => some q
  | .nonNumeric => none

/-- `parseFloat(s) || 0`: the source's NaN-to-zero coercion
(lines 180-182). A parsed `0` is falsy in JavaScript but `0 || 0 = 0`,
so `getD 0` is exact. -/
def parseFloatOr0 (s : FormStr) : ℚ :=
  (parseFloat s).getD 0

/-- JavaScript truthiness of the field viewed as a string: only the empty
string is falsy (note `"0"` and `"abc"` are truthy). -/
def truthy : FormStr → Bool
  | .empty => false
  | _ => true

end FormStr

/-- The draft state `formData` (lines 22-29): `date` is a calendar-date
string, `partyName` a free string, and the three numeric fields are
string-typed form fields. -/
structure FormData where
  date : String
  type : TransactionType
  partyName : String
  quantityGrams : FormStr
  ratePerGram : FormStr
  gstRate : FormStr
deriving DecidableEq, Repr

/-- The default draft (lines 22-29 and 203): today's date, PURCHASE, empty
party/quantity/rate, GST rate string `'3'`. -/
def initialFormData (today : String) : FormData :=
  { date := today
    type := TransactionType.PURCHASE
    partyName := ""
    quantityGrams := FormStr.empty
    ratePerGram := FormStr.empty
    gstRate := FormStr.numeric 3 }

/-- The record returned by `calculateTotals` (line 185):
`{ taxable, gstAmt, total }`. -/
structure ComputedTotals where
  taxable : ℚ
  gstAmt : ℚ
  total : ℚ
deriving DecidableEq, Repr

/-- `calculateTotals` (lines 179-186): each field is parsed with
`parseFloat(...) || 0`, then `taxable = qty * rate`,
`gstAmt = taxable * (gst / 100)`, `total = taxable + gstAmt`. -/
def calculateTotals (f : FormData) : ComputedTotals :=
  let qty := f.quantityGrams.parseFloatOr0
  let rate := f.ratePerGram.parseFloatOr0
  let gst := f.gstRate.parseFloatOr0
  let taxable := qty * rate
  let gstAmt := taxable * (gst / 100)
  { taxable := taxable, gstAmt := gstAmt, total := taxable + gstAmt }

/-- `handleTotalChange` (lines 40-48): with `total = parseFloat(value)` and
`qty = parseFloat(formData.quantityGrams)`, if both are numbers and
`qty > 0` the rate field is set to the string of `total / qty`; otherwise,
if the entered value is exactly the empty string, the rate field is reset
to empty; otherwise nothing changes. -/
def handleTotalChange (value : FormStr) (f : FormData) : FormData :=
  let num : Option ℚ :=
    match value.parseFloat, f.quantityGrams.parseFloat with
    | some total, some qty => if 0 < qty then some (total / qty) else none
    | _, _ => none
  match num with
  | some r => { f with ratePerGram := FormStr.numeric r }
  | none =>
    if value = FormStr.empty then { f with ratePerGram := FormStr.empty }
    else f

/-- A staged upload, modelled by its name only (the component never inspects
anything else on the submit path). -/
structure JSFile where
  name : String
deriving DecidableEq, Repr

/-- The error messages the component can place in its `error` state, as an
inductive carrying the interpolated values: `dateLocked` names the lock date
(line 193), `insufficientInventory` reports the available stock (line 196). -/
inductive UIError where
  | dateLocked (lock : String)
  | missingFields
  | insufficientInventory (avail : ℚ)
  | autoExtractFailed
  | processingFailed
deriving DecidableEq, Repr

/-- The component's full mutable state (lines 16-31). -/
structure ComponentState where
  mode : Mode
  ocrText : String
  selectedFile : Option JSFile
  isProcessing : Bool
  formData : FormData
  error : Option UIError
deriving DecidableEq, Repr

/-- The finalized record passed to `onAdd` (lines 198-202, `Invoice` in
`../types`). `quantityGrams`, `ratePerGram` and `gstRate` are
`parseFloat` results without the `|| 0` fallback, so `none` models `NaN`. -/
structure Invoice where
  id : String
  date : String
  type : TransactionType
  partyName : String
  quantityGrams : Option ℚ
  ratePerGram : Option ℚ
  gstRate : Option ℚ
  gstAmount : ℚ
  taxableAmount : ℚ
  totalAmount : ℚ
deriving DecidableEq, Repr

/-- The period-lock test of line 193: `lockDate && formData.date <= lockDate`.
JavaScript truthiness makes both `null` and the empty string skip the lock;
`<=` is lexicographic string comparison. -/
def lockViolated (lockDate : Option String) (date : String) : Bool :=
  match lockDate with
  | some l => l ≠ "" && date ≤ l
  | none => false

/-- The completeness test of line 194:
`!partyName || !quantityGrams || !ratePerGram` — string truthiness only,
so any non-empty string (numeric or not) passes. -/
def fieldsMissing (f : FormData) : Bool :=
  f.partyName = "" || !f.quantityGrams.truthy || !f.ratePerGram.truthy

/-- The inventory test of line 196:
`formData.type === 'SALE' && qty > currentStock` where
`qty = parseFloat(formData.quantityGrams)`; a `NaN` quantity compares false. -/
def inventoryInsufficient (currentStock : ℚ) (f : FormData) : Bool :=
  f.type = TransactionType.SALE &&
    match f.quantityGrams.parseFloat with
    | some q => currentStock < q
    | none => false

/-- The validation gate of `handleSubmit` (lines 193-196), evaluated in
source order with early return: period lock, then completeness, then
inventory sufficiency; `none` means the draft is accepted. -/
def validateDraft (lockDate : Option String) (currentStock : ℚ)
    (f : FormData) : Option UIError :=
  if lockViolated lockDate f.date then
    some (UIError.dateLocked (lockDate.getD ""))
  else if fieldsMissing f then some UIError.missingFields
  else if inventoryInsufficient currentStock f then
    some (UIError.insufficientInventory currentStock)
  else none

/-- `handleSubmit` (lines 190-206) as a state transformer. Inputs beyond the
state are the component props `lockDate` and `currentStock`, the externally
generated `newId` (`generateId()`), and `today` (`new Date()...`). The second
component of the result is the single `onAdd` emission: `some t` exactly when
the submission is accepted. On rejection only `error` changes; on success the
invoice is built from `calculateTotals` and the `parseFloat` of each field,
and the draft, staged text and file are reset (lines 203-205). -/
def handleSubmit (lockDate : Option String) (currentStock : ℚ)
    (newId today : String) (s : ComponentState) :
    ComponentState × Option Invoice :=
  let f := s.formData
  match validateDraft lockDate currentStock f with
  | some e => ({ s with error := some e }, none)
  | none =>
    let t := calculateTotals f
    let inv : Invoice :=
      { id := newId
        date := f.date
        type := f.type
        partyName := f.partyName
        quantityGrams := f.quantityGrams.parseFloat
        ratePerGram := f.ratePerGram.parseFloat
        gstRate := f.gstRate.parseFloat
        gstAmount := t.gstAmt
        taxableAmount := t.taxable
        totalAmount := t.total }
    ({ s with formData := initialFormData today
              ocrText := ""
              selectedFile := none
              error := none }, some inv)

/-- Structured data parsed from the extraction-service response
(lines 81-92, 135): each schema field may be absent. `type` is kept as the
enum the schema constrains it to; a JSON number cannot be `NaN`, so numeric
fields are plain rationals when present. -/
structure GeminiData where
  date : Option String
  type : Option TransactionType
  partyName : Option String
  quantityGrams : Option ℚ
  ratePerGram : Option ℚ
  gstRate : Option ℚ
deriving DecidableEq, Repr

/-- Outcome of the structured-extraction call as observed by the `try`
block: `failure` covers a network/service error, a thrown `JSON.parse`, and a
non-object parse result; `response d` is a successfully parsed object. -/
inductive ServiceOutcome where
  | failure
  | response (d : GeminiData)
deriving DecidableEq, Repr

/-- JavaScript truthiness of an optional string (absent and `""` falsy). -/
def truthyOptStr : Option String → Bool
  | some s => s ≠ ""
  | none => false

/-- JavaScript truthiness of an optional number (absent and `0` falsy). -/
def truthyOptNum : Option ℚ → Bool
  | some q => q ≠ 0
  | none => false

/-- The minimum-signal test of line 137:
`data && (data.partyName || data.quantityGrams)`. -/
def hasSignal (d : GeminiData) : Bool :=
  truthyOptStr d.partyName || truthyOptNum d.quantityGrams

/-- True when the structured-extraction path fails: service error, parse
error, or a response lacking both a truthy party name and a truthy
quantity (which the source turns into a thrown error at line 150). -/
def extractionFailed : ServiceOutcome → Bool
  | ServiceOutcome.failure => true
  | ServiceOutcome.response d => !hasSignal d

/-- `a || b` on an optional string against a string default. -/
def jsOrStr (a : Option String) (b : String) : String :=
  match a with
  | some s => if s = "" then b else s
  | none => b

/-- The draft built from a successful structured response (lines 138-145):
`data.date || today`, `data.type || 'PURCHASE'`, `data.partyName || ''`,
`data.quantityGrams?.toString() || ''` (so an absent number gives the empty
field and a present one, zero included, gives its numeric string), and
`data.gstRate?.toString() || '3'`. -/
def geminiToForm (today : String) (d : GeminiData) : FormData :=
  { date := jsOrStr d.date today
    type := d.type.getD TransactionType.PURCHASE
    partyName := jsOrStr d.partyName ""
    quantityGrams :=
      match d.quantityGrams with
      | some q => FormStr.numeric q
      | none => FormStr.empty
    ratePerGram :=
      match d.ratePerGram with
      | some q => FormStr.numeric q
      | none => FormStr.empty
    gstRate :=
      match d.gstRate with
      | some q => FormStr.numeric q
      | none => FormStr.numeric 3 }

/-- The result shape of the fallback text parser `parseInvoiceOCR`
(imported from `../utils`, outside this file), inferred from its uses at
lines 158-166: string fields with `""` for no value, numeric fields with
`0`-or-less meaning no value, and a sale flag. -/
structure OcrResult where
  date : String
  partyName : String
  quantity : ℚ
  rate : ℚ
  gstRate : ℚ
  isSale : Bool
deriving DecidableEq, Repr

/-- The draft merge of the fallback path (lines 158-166): parsed values win
over the current draft where truthy (`date`, `partyName`, `gstRate`),
quantity and rate are kept only when strictly positive (else cleared), and
the type is SALE exactly when `result.isSale`. -/
def mergeOcr (f : FormData) (r : OcrResult) : FormData :=
  { date := if r.date = "" then f.date else r.date
    partyName := if r.partyName = "" then f.partyName else r.partyName
    quantityGrams :=
      if 0 < r.quantity then FormStr.numeric r.quantity else FormStr.empty
    ratePerGram :=
      if 0 < r.rate then FormStr.numeric r.rate else FormStr.empty
    gstRate := if r.gstRate ≠ 0 then FormStr.numeric r.gstRate else f.gstRate
    type :=
      if r.isSale then TransactionType.SALE else TransactionType.PURCHASE }

/-- The `catch` block of `handleOcrProcess` (lines 152-173): with text input
(`!selectedFile && ocrText`) the fallback parser runs and its result is
applied via `mergeOcr` (or an auto-extraction-failed error if it returns
null); with a document input, or no staged text, a processing-failed error
is surfaced and the fallback parser is never consulted. -/
def ocrCatch (fallback : String → Option OcrResult) (s : ComponentState) :
    ComponentState :=
  if s.selectedFile = none ∧ s.ocrText ≠ "" then
    match fallback s.ocrText with
    | some r =>
      { s with formData := mergeOcr s.formData r, mode := Mode.MANUAL }
    | none => { s with error := some UIError.autoExtractFailed }
  else { s with error := some UIError.processingFailed }

/-- The line-72 guard `!ocrText.trim()`: the trimmed string is empty — that
is, truthiness fails — exactly when every character is whitespace. -/
def blankText (s : String) : Bool :=
  s.data.all Char.isWhitespace

/-- `handleOcrProcess` (lines 71-177) as a state transformer, with the
single awaited service call abstracted into `outcome` and the external
`parseInvoiceOCR` abstracted into `fallback`. Empty input (blank trimmed
text and no file) returns immediately without touching state (line 72);
otherwise the busy flag is raised and the error cleared, the structured
path applies `geminiToForm` on success (switching to MANUAL and clearing
the file, lines 138-148), any failure runs `ocrCatch`, and `finally`
lowers the busy flag (line 175). -/
def handleOcrProcess (today : String) (fallback : String → Option OcrResult)
    (outcome : ServiceOutcome) (s : ComponentState) : ComponentState :=
  if blankText s.ocrText = true ∧ s.selectedFile = none then s
  else
    let s1 : ComponentState := { s with isProcessing := true, error := none }
    let s2 : ComponentState :=
      match outcome with
      | ServiceOutcome.response d =>
        if hasSignal d then
          { s1 with formData := geminiToForm today d
                    mode := Mode.MANUAL
                    selectedFile := none }
        else ocrCatch fallback s1
      | ServiceOutcome.failure => ocrCatch fallback s1
    { s2 with isProcessing := false }

/-- Abstract state of the extraction protocol: the component's
`isProcessing` flag and a ghost count of service calls in flight. -/
structure OrchState where
  busy : Bool
  inFlight : ℕ
deriving DecidableEq, Repr

/-- Events of the extraction protocol, as the source exposes them: a click
on the process button, which is a no-op while `disabled` (line 283 disables
it whenever `isProcessing` is true) and otherwise runs lines 72-73 — either
the empty-input early return or `setIsProcessing(true)` plus issuing the
service call; and the completion of an in-flight call, whose `finally`
(line 175) runs `setIsProcessing(false)`. -/
inductive OrchStep : OrchState → OrchState → Prop where
  | clickWhileBusy (s : OrchState) : s.busy = true → OrchStep s s
  | clickEmptyInput (s : OrchState) : s.busy = false → OrchStep s s
  | clickStart (s : OrchState) : s.busy = false →
      OrchStep s { busy := true, inFlight := s.inFlight + 1 }
  | complete (s : OrchState) : 0 < s.inFlight →
      OrchStep s { busy := false, inFlight := s.inFlight - 1 }

/-- The component's initial protocol state: not processing, nothing in
flight (line 19: `useState(false)`). -/
def orchInit : OrchState := { busy := false, inFlight := 0 }

/-- States reachable from `orchInit` by the protocol's events. -/
inductive OrchReachable : OrchState → Prop where
  | init : OrchReachable orchInit
  | step {s t : OrchState} : OrchReachable s → OrchStep s t → OrchReachable t

/-- The truthiness of a form field fails exactly on the empty string. -/
theorem truthy_eq_false_iff (s : FormStr) :
    s.truthy = false ↔ s = FormStr.empty := by
  cases s <;> simp [FormStr.truthy]

/-- C1: for every draft — non-numeric or missing quantity, rate and GST-rate
strings parsing to 0 — `calculateTotals` returns
`taxable = quantityGrams * ratePerGram`, `gstAmt = taxable * (gst / 100)`
and `total = taxable + gstAmt`. It is a total Lean function, so it never
errors. -/
theorem calculateTotals_spec (f : FormData) :
    (calculateTotals f).taxable =
        f.quantityGrams.parseFloatOr0 * f.ratePerGram.parseFloatOr0 ∧
    (calculateTotals f).gstAmt =
        (calculateTotals f).taxable * (f.gstRate.parseFloatOr0 / 100) ∧
    (calculateTotals f).total =
        (calculateTotals f).taxable + (calculateTotals f).gstAmt ∧
    FormStr.parseFloatOr0 FormStr.empty = 0 ∧
    FormStr.parseFloatOr0 FormStr.nonNumeric = 0 :=
  ⟨rfl, rfl, rfl, rfl, rfl⟩

/-- C2: the rate back-derivation — if the quantity field parses to `q > 0`
and the entered total parses to `t`, the rate becomes `t / q`; if the
entered total is the empty string (and the first case does not apply), the
rate is reset to empty; in every other case (quantity `NaN`, quantity not
positive, or a non-numeric non-empty total) the draft is unchanged. A total
Lean function: no error, no division by zero is observable. -/
theorem handleTotalChange_spec (value : FormStr) (f : FormData) :
    (∀ t q, value = FormStr.numeric t → f.quantityGrams.parseFloat = some q →
        0 < q →
        handleTotalChange value f =
          { f with ratePerGram := FormStr.numeric (t / q) }) ∧
    (value = FormStr.empty →
        handleTotalChange value f =
          { f with ratePerGram := FormStr.empty }) ∧
    (value ≠ FormStr.empty →
        (value.parseFloat = none ∨ f.quantityGrams.parseFloat = none ∨
          (∃ q, f.quantityGrams.parseFloat = some q ∧ q ≤ 0)) →
        handleTotalChange value f = f) := by
  refine ⟨?_, ?_, ?_⟩
  · rintro t q rfl hq h0
    unfold handleTotalChange
    rw [show (FormStr.numeric t).parseFloat = some t from rfl, hq]
    simp [h0]
  · rintro rfl
    simp [handleTotalChange, FormStr.parseFloat]
  · intro hne hcase
    rcases hcase with hv | hq | ⟨q, hq, hq0⟩
    · cases value <;> simp_all [handleTotalChange, FormStr.parseFloat]
    · cases value <;> simp_all [handleTotalChange, FormStr.parseFloat]
    · cases value <;> simp_all [handleTotalChange, FormStr.parseFloat, not_lt.mpr hq0]

/-- Witness for C2 at a concrete draft with quantity `"2"`: entering the
total `"10"` sets the rate to `10 / 2`, clearing the total resets the rate,
and a non-numeric total is a no-op. -/
theorem handleTotalChange_spec_witness :
    handleTotalChange (FormStr.numeric 10)
        { initialFormData "2026-02-03" with quantityGrams := FormStr.numeric 2 } =
      { initialFormData "2026-02-03" with
          quantityGrams := FormStr.numeric 2
          ratePerGram := FormStr.numeric (10 / 2) } ∧
    handleTotalChange FormStr.empty
        { initialFormData "2026-02-03" with quantityGrams := FormStr.numeric 2 } =
      { initialFormData "2026-02-03" with
          quantityGrams := FormStr.numeric 2
          ratePerGram := FormStr.empty } ∧
    handleTotalChange FormStr.nonNumeric
        { initialFormData "2026-02-03" with quantityGrams := FormStr.numeric 2 } =
      { initialFormData "2026-02-03" with quantityGrams := FormStr.numeric 2 } :=
  ⟨(handleTotalChange_spec _ _).1 10 2 rfl rfl (by norm_num),
   (handleTotalChange_spec _ _).2.1 rfl,
   (handleTotalChange_spec _ _).2.2 (by simp) (Or.inl rfl)⟩

/-- C3: round trip — for a draft whose quantity field parses to `q > 0` and
any numeric entered total `t`, deriving the rate from `t` and recomputing
the taxable amount returns `t` within the spec's 0.01 tolerance (in fact
exactly). -/
theorem roundTrip_taxable (t q : ℚ) (f : FormData)
    (hq : f.quantityGrams = FormStr.numeric q) (h0 : 0 < q) :
    |(calculateTotals (handleTotalChange (FormStr.numeric t) f)).taxable - t| ≤
      1 / 100 := by
  have hstep := (handleTotalChange_spec (FormStr.numeric t) f).1 t q rfl
    (by rw [hq]; rfl) h0
  rw [hstep]
  simp only [calculateTotals, FormStr.parseFloatOr0, FormStr.parseFloat, hq]
  have : q * (t / q) = t := by
    field_simp
  simp [this]

/-- Witness for C3 with quantity `"2"` and entered total `"7"`. -/
theorem roundTrip_taxable_witness :
    ({ initialFormData "2026-02-03" with
        quantityGrams := FormStr.numeric 2 } : FormData).quantityGrams =
      FormStr.numeric 2 ∧
    (0 : ℚ) < 2 ∧
    |(calculateTotals (handleTotalChange (FormStr.numeric 7)
        { initialFormData "2026-02-03" with
          quantityGrams := FormStr.numeric 2 })).taxable - 7| ≤ 1 / 100 :=
  ⟨rfl, by norm_num, roundTrip_taxable 7 2 _ rfl (by norm_num)⟩

/-- C4: the validation gate evaluates period-lock, completeness and
inventory in that fixed order with the first failure as the single surfaced
error: a violated lock reports the lock-date error whatever the other rules
say (in particular when completeness is simultaneously violated); with the
lock satisfied a completeness failure reports missing fields whatever the
inventory says; then an inventory failure reports insufficient inventory;
and with all three satisfied the draft is accepted. -/
theorem validateDraft_order (lockDate : Option String) (stock : ℚ)
    (f : FormData) :
    (∀ l, lockDate = some l → l ≠ "" → f.date ≤ l →
        validateDraft lockDate stock f = some (UIError.dateLocked l)) ∧
    (lockViolated lockDate f.date = false → fieldsMissing f = true →
        validateDraft lockDate stock f = some UIError.missingFields) ∧
    (lockViolated lockDate f.date = false → fieldsMissing f = false →
        inventoryInsufficient stock f = true →
        validateDraft lockDate stock f =
          some (UIError.insufficientInventory stock)) ∧
    (lockViolated lockDate f.date = false → fieldsMissing f = false →
        inventoryInsufficient stock f = false →
        validateDraft lockDate stock f = none) := by
  refine ⟨?_, ?_, ?_, ?_⟩
  · rintro l rfl hl hle
    simp [validateDraft, lockViolated, hl, hle]
  · intro hlock hfm
    simp [validateDraft, hlock, hfm]
  · intro hlock hfm hinv
    simp [validateDraft, hlock, hfm, hinv]
  · intro hlock hfm hinv
    simp [validateDraft, hlock, hfm, hinv]

/-- Witness for C4: a draft dated on the lock date whose required fields
are all empty (so completeness is also violated) is rejected with the
lock-date error. -/
theorem validateDraft_order_witness :
    ("2026-01-31" : String) ≠ "" ∧
    ("2026-01-15" : String) ≤ "2026-01-31" ∧
    validateDraft (some "2026-01-31") 0 (initialFormData "2026-01-15") =
      some (UIError.dateLocked "2026-01-31") :=
  ⟨by decide, String.le_iff_toList_le.mpr (by decide),
    (validateDraft_order (some "2026-01-31") 0
      (initialFormData "2026-01-15")).1 "2026-01-31" rfl (by decide)
      (String.le_iff_toList_le.mpr (by decide))⟩

/-- The completeness test succeeds exactly on an empty party name or an
empty quantity or rate string. -/
theorem fieldsMissing_iff (f : FormData) :
    fieldsMissing f = true ↔
      (f.partyName = "" ∨ f.quantityGrams = FormStr.empty ∨
        f.ratePerGram = FormStr.empty) := by
  simp only [fieldsMissing, Bool.or_eq_true, decide_eq_true_eq,
    Bool.not_eq_true', truthy_eq_false_iff]
  tauto

/-- Counterexample to C5: a draft whose quantity field is a present but
non-numeric string (party `"ABC"`, quantity `"abc"`, rate `"5"`) is not
rejected with the missing-required-fields error — the line-194 check tests
only string truthiness, so validation accepts the draft outright. -/
theorem validateDraft_nonNumeric_accepted :
    validateDraft none 10
      { date := "2026-02-03"
        type := TransactionType.PURCHASE
        partyName := "ABC"
        quantityGrams := FormStr.nonNumeric
        ratePerGram := FormStr.numeric 5
        gstRate := FormStr.numeric 3 } = none := by
  decide

/-- C5 as amended: with the period lock passed, the validation gate reports
the missing-required-fields error exactly when the party name is empty or
the quantity or rate string is empty; a present but non-numeric string
passes the presence test and is not rejected by this rule. -/
theorem missingFields_presence_only (lockDate : Option String) (stock : ℚ)
    (f : FormData) (hlock : lockViolated lockDate f.date = false) :
    validateDraft lockDate stock f = some UIError.missingFields ↔
      (f.partyName = "" ∨ f.quantityGrams = FormStr.empty ∨
        f.ratePerGram = FormStr.empty) := by
  constructor
  · intro h
    by_cases hm : fieldsMissing f = true
    · exact (fieldsMissing_iff f).mp hm
    · exfalso
      rw [Bool.not_eq_true] at hm
      simp only [validateDraft, hlock, hm] at h
      cases hi : inventoryInsufficient stock f <;> simp [hi] at h
  · intro h
    have hm := (fieldsMissing_iff f).mpr h
    simp [validateDraft, hlock, hm]

/-- Witness for the amended C5 at the default (all-empty) draft: the gate
reports missing fields, and the characterization holds. -/
theorem missingFields_presence_only_witness :
    lockViolated none (initialFormData "2026-02-03").date = false ∧
    (validateDraft none 0 (initialFormData "2026-02-03") =
        some UIError.missingFields ↔
      ((initialFormData "2026-02-03").partyName = "" ∨
        (initialFormData "2026-02-03").quantityGrams = FormStr.empty ∨
        (initialFormData "2026-02-03").ratePerGram = FormStr.empty)) :=
  ⟨rfl, missingFields_presence_only none 0 (initialFormData "2026-02-03") rfl⟩

/-- C6: with the period lock and completeness passed and a numeric quantity
`q`, a SALE draft with `q` exactly equal to the available stock is accepted;
a SALE draft with `q` strictly above the stock is rejected with the
insufficient-inventory error reporting the available quantity; and a
PURCHASE draft is never touched by the inventory rule. -/
theorem inventoryRule_spec (lockDate : Option String) (stock q : ℚ)
    (f : FormData) (hlock : lockViolated lockDate f.date = false)
    (hfm : fieldsMissing f = false)
    (hq : f.quantityGrams.parseFloat = some q) :
    (f.type = TransactionType.SALE → q = stock →
        validateDraft lockDate stock f = none) ∧
    (f.type = TransactionType.SALE → stock < q →
        validateDraft lockDate stock f =
          some (UIError.insufficientInventory stock)) ∧
    (f.type = TransactionType.PURCHASE →
        validateDraft lockDate stock f = none) := by
  refine ⟨?_, ?_, ?_⟩
  · intro htype hqs
    simp [validateDraft, hlock, hfm, inventoryInsufficient, htype, hq, hqs]
  · intro htype hqs
    simp [validateDraft, hlock, hfm, inventoryInsufficient, htype, hq, hqs]
  · intro htype
    simp [validateDraft, hlock, hfm, inventoryInsufficient, htype, hq]

/-- Witness for C6: a SALE of `10.001` grams against a stock of `10` grams
is rejected with the insufficient-inventory error reporting `10`. -/
theorem inventoryRule_spec_witness :
    fieldsMissing
      { date := "2026-02-03"
        type := TransactionType.SALE
        partyName := "XYZ Jewellers"
        quantityGrams := FormStr.numeric (10 + 1 / 1000)
        ratePerGram := FormStr.numeric 6500
        gstRate := FormStr.numeric 3 } = false ∧
    (10 : ℚ) < 10 + 1 / 1000 ∧
    validateDraft none 10
      { date := "2026-02-03"
        type := TransactionType.SALE
        partyName := "XYZ Jewellers"
        quantityGrams := FormStr.numeric (10 + 1 / 1000)
        ratePerGram := FormStr.numeric 6500
        gstRate := FormStr.numeric 3 } =
      some (UIError.insufficientInventory 10) := by
  refine ⟨by decide, by norm_num, ?_⟩
  exact (inventoryRule_spec none 10 (10 + 1 / 1000)
    { date := "2026-02-03"
      type := TransactionType.SALE
      partyName := "XYZ Jewellers"
      quantityGrams := FormStr.numeric (10 + 1 / 1000)
      ratePerGram := FormStr.numeric 6500
      gstRate := FormStr.numeric 3 } rfl (by decide) rfl).2.1 rfl (by norm_num)

/-- C7: on a successful submission with numeric quantity `q`, rate `r` and
GST rate `g`, `handleSubmit` emits exactly one invoice — carrying the
externally generated fresh identifier and the totals recomputed from the
current draft, with `taxableAmount = q * r`,
`gstAmount = q * r * (g / 100)` and
`totalAmount = taxableAmount + gstAmount = q * r * (1 + g / 100)` exactly —
and resets the draft to its default state: today's date, PURCHASE, empty
party, quantity, and rate, and the GST string `'3'`. -/
theorem handleSubmit_success (lockDate : Option String) (stock : ℚ)
    (newId today : String) (s : ComponentState) (q r g : ℚ)
    (hv : validateDraft lockDate stock s.formData = none)
    (hq : s.formData.quantityGrams.parseFloat = some q)
    (hr : s.formData.ratePerGram.parseFloat = some r)
    (hg : s.formData.gstRate.parseFloat = some g) :
    handleSubmit lockDate stock newId today s =
      ({ s with formData := initialFormData today
                ocrText := ""
                selectedFile := none
                error := none },
        some { id := newId
               date := s.formData.date
               type := s.formData.type
               partyName := s.formData.partyName
               quantityGrams := some q
               ratePerGram := some r
               gstRate := some g
               gstAmount := q * r * (g / 100)
               taxableAmount := q * r
               totalAmount := q * r * (1 + g / 100) }) := by
  have htot : q * r + q * r * (g / 100) = q * r * (1 + g / 100) := by ring
  simp only [handleSubmit, hv, calculateTotals, FormStr.parseFloatOr0, hq,
    hr, hg, Option.getD_some, htot]

/-- Witness for C7: submitting a completed purchase draft (party `"ABC"`,
5 grams at 6500 with 3% GST) emits the invoice and resets the draft. -/
theorem handleSubmit_success_witness :
    validateDraft none 0
      { date := "2026-02-03"
        type := TransactionType.PURCHASE
        partyName := "ABC"
        quantityGrams := FormStr.numeric 5
        ratePerGram := FormStr.numeric 6500
        gstRate := FormStr.numeric 3 } = none ∧
    handleSubmit none 0 "id-1" "2026-02-04"
      { mode := Mode.MANUAL
        ocrText := "some staged text"
        selectedFile := none
        isProcessing := false
        formData :=
          { date := "2026-02-03"
            type := TransactionType.PURCHASE
            partyName := "ABC"
            quantityGrams := FormStr.numeric 5
            ratePerGram := FormStr.numeric 6500
            gstRate := FormStr.numeric 3 }
        error := none } =
      ({ mode := Mode.MANUAL
         ocrText := ""
         selectedFile := none
         isProcessing := false
         formData := initialFormData "2026-02-04"
         error := none },
        some { id := "id-1"
               date := "2026-02-03"
               type := TransactionType.PURCHASE
               partyName := "ABC"
               quantityGrams := some 5
               ratePerGram := some 6500
               gstRate := some 3
               gstAmount := 5 * 6500 * (3 / 100)
               taxableAmount := 5 * 6500
               totalAmount := 5 * 6500 * (1 + 3 / 100) }) := by
  refine ⟨by decide, ?_⟩
  exact handleSubmit_success none 0 "id-1" "2026-02-04"
    { mode := Mode.MANUAL
      ocrText := "some staged text"
      selectedFile := none
      isProcessing := false
      formData :=
        { date := "2026-02-03"
          type := TransactionType.PURCHASE
          partyName := "ABC"
          quantityGrams := FormStr.numeric 5
          ratePerGram := FormStr.numeric 6500
          gstRate := FormStr.numeric 3 }
      error := none } 5 6500 3 (by decide) rfl rfl rfl

/-- C10: a submission rejected by any validation rule changes nothing but
the error message — the draft fields, the staged text, the selected file,
the mode and the busy flag are untouched, and no invoice is emitted. -/
theorem handleSubmit_rejection_atomic (lockDate : Option String) (stock : ℚ)
    (newId today : String) (s : ComponentState) (e : UIError)
    (hv : validateDraft lockDate stock s.formData = some e) :
    handleSubmit lockDate stock newId today s =
      ({ s with error := some e }, none) := by
  simp [handleSubmit, hv]

/-- Witness for C10: submitting the default (incomplete) draft only sets
the missing-fields error. -/
theorem handleSubmit_rejection_atomic_witness :
    validateDraft none 0 (initialFormData "2026-02-03") =
      some UIError.missingFields ∧
    handleSubmit none 0 "id-2" "2026-02-04"
      { mode := Mode.MANUAL
        ocrText := "staged"
        selectedFile := some { name := "a.pdf" }
        isProcessing := false
        formData := initialFormData "2026-02-03"
        error := none } =
      ({ mode := Mode.MANUAL
         ocrText := "staged"
         selectedFile := some { name := "a.pdf" }
         isProcessing := false
         formData := initialFormData "2026-02-03"
         error := some UIError.missingFields }, none) := by
  refine ⟨by decide, ?_⟩
  exact handleSubmit_rejection_atomic none 0 "id-2" "2026-02-04"
    { mode := Mode.MANUAL
      ocrText := "staged"
      selectedFile := some { name := "a.pdf" }
      isProcessing := false
      formData := initialFormData "2026-02-03"
      error := none } UIError.missingFields (by decide)

/-- C8: on every extraction failure (service error, unparsable response, or
a structured response without a truthy party name or quantity), the
orchestrator falls back exactly to the deterministic text parser when the
input was staged text (merging a parse result into the draft, or surfacing
the auto-extraction error when the parser finds nothing), while for a
document input no fallback parse is attempted — the stated result does not
consult `fallback` — and the processing-failed reason is surfaced. -/
theorem handleOcrProcess_failure (today : String)
    (fallback : String → Option OcrResult) (outcome : ServiceOutcome)
    (s : ComponentState) (hfail : extractionFailed outcome = true) :
    (s.selectedFile = none → blankText s.ocrText = false →
      handleOcrProcess today fallback outcome s =
        match fallback s.ocrText with
        | some r =>
          { s with formData := mergeOcr s.formData r
                   mode := Mode.MANUAL
                   isProcessing := false
                   error := none }
        | none =>
          { s with isProcessing := false
                   error := some UIError.autoExtractFailed }) ∧
    (∀ file, s.selectedFile = some file →
      handleOcrProcess today fallback outcome s =
        { s with isProcessing := false
                 error := some UIError.processingFailed }) := by
  constructor
  · intro hfile hblank
    have htext : s.ocrText ≠ "" := by
      intro he
      rw [he] at hblank
      exact Bool.noConfusion hblank
    have hguard : ¬(blankText s.ocrText = true ∧ s.selectedFile = none) := by
      rw [hblank]
      rintro ⟨h, -⟩
      exact Bool.noConfusion h
    cases outcome with
    | failure =>
      simp only [handleOcrProcess, if_neg hguard, ocrCatch]
      rw [if_pos ⟨hfile, htext⟩]
      cases hfb : fallback s.ocrText <;> simp [hfb]
    | response d =>
      have hsig : hasSignal d = false := by
        simpa [extractionFailed] using hfail
      simp only [handleOcrProcess, if_neg hguard, hsig, Bool.false_eq_true,
        if_false, ocrCatch]
      rw [if_pos ⟨hfile, htext⟩]
      cases hfb : fallback s.ocrText <;> simp [hfb]
  · intro file hfile
    have hguard : ¬(blankText s.ocrText = true ∧ s.selectedFile = none) := by
      rw [hfile]
      rintro ⟨-, h⟩
      exact Option.noConfusion h
    have hcatch : ¬(s.selectedFile = none ∧ s.ocrText ≠ "") := by
      rw [hfile]
      rintro ⟨h, -⟩
      exact Option.noConfusion h
    cases outcome with
    | failure =>
      simp only [handleOcrProcess, if_neg hguard, ocrCatch]
      rw [if_neg hcatch]
    | response d =>
      have hsig : hasSignal d = false := by
        simpa [extractionFailed] using hfail
      simp only [handleOcrProcess, if_neg hguard, hsig, Bool.false_eq_true,
        if_false, ocrCatch]
      rw [if_neg hcatch]

/-- Witness for C8: the text input `"Sold 5g to XYZ Jewellers at Rs 6500
per gram"` whose structured extraction fails is populated through the
fallback parser (here returning SALE, 5 grams at 6500), giving a SALE draft
with quantity 5 and rate 6500. -/
theorem handleOcrProcess_failure_witness :
    handleOcrProcess "2026-02-03"
      (fun _ => some { date := ""
                       partyName := "XYZ Jewellers"
                       quantity := 5
                       rate := 6500
                       gstRate := 0
                       isSale := true })
      ServiceOutcome.failure
      { mode := Mode.UPLOAD
        ocrText := "Sold 5g to XYZ Jewellers at Rs 6500 per gram"
        selectedFile := none
        isProcessing := false
        formData := initialFormData "2026-02-03"
        error := none } =
      { mode := Mode.MANUAL
        ocrText := "Sold 5g to XYZ Jewellers at Rs 6500 per gram"
        selectedFile := none
        isProcessing := false
        formData :=
          { date := "2026-02-03"
            type := TransactionType.SALE
            partyName := "XYZ Jewellers"
            quantityGrams := FormStr.numeric 5
            ratePerGram := FormStr.numeric 6500
            gstRate := FormStr.numeric 3 }
        error := none } := by
  have h := (handleOcrProcess_failure "2026-02-03"
    (fun _ => some { date := ""
                     partyName := "XYZ Jewellers"
                     quantity := 5
                     rate := 6500
                     gstRate := 0
                     isSale := true })
    ServiceOutcome.failure
    { mode := Mode.UPLOAD
      ocrText := "Sold 5g to XYZ Jewellers at Rs 6500 per gram"
      selectedFile := none
      isProcessing := false
      formData := initialFormData "2026-02-03"
      error := none } rfl).1 rfl (by decide)
  rw [h]
  decide

/-- C9: serialization of extraction attempts. In every state reachable by
the component's extraction protocol, at most one service call is in flight;
whenever a call is in flight the exposed `isProcessing` flag is raised; and
from a busy state no event starts another call — a click is rejected by the
disabled guard, so the in-flight count never increases while busy. -/
theorem extraction_serialized (s : OrchState) (h : OrchReachable s) :
    s.inFlight ≤ 1 ∧ (0 < s.inFlight → s.busy = true) ∧
    (s.busy = true → ∀ t, OrchStep s t → t.inFlight ≤ s.inFlight) := by
  have inv : s.inFlight ≤ 1 ∧ (s.busy = false → s.inFlight = 0) := by
    induction h with
    | init => exact ⟨Nat.zero_le 1, fun _ => rfl⟩
    | step hr hstep ih =>
      cases hstep with
      | clickWhileBusy hb => exact ih
      | clickEmptyInput hb => exact ih
      | clickStart hb =>
        have h0 := ih.2 hb
        refine ⟨?_, ?_⟩
        · show _ + 1 ≤ 1
          omega
        · intro hb2
          exact absurd hb2 (by simp)
      | complete hpos =>
        have h1 := ih.1
        refine ⟨?_, fun _ => ?_⟩
        · show _ - 1 ≤ 1
          omega
        · show _ - 1 = 0
          omega
  refine ⟨inv.1, ?_, ?_⟩
  · intro hpos
    cases hb : s.busy with
    | true => rfl
    | false =>
      have := inv.2 hb
      omega
  · intro hb t hstep
    cases hstep with
    | clickWhileBusy _ => exact le_refl _
    | clickEmptyInput hb2 => simp [hb] at hb2
    | clickStart hb2 => simp [hb] at hb2
    | complete hpos =>
      show _ - 1 ≤ _
      omega

/-- Witness for C9 at the reachable busy state with one call in flight. -/
theorem extraction_serialized_witness :
    OrchReachable { busy := true, inFlight := 1 } ∧
    ({ busy := true, inFlight := 1 } : OrchState).inFlight ≤ 1 := by
  have hr : OrchReachable { busy := true, inFlight := 1 } :=
    OrchReachable.step OrchReachable.init (OrchStep.clickStart orchInit rfl)
  exact ⟨hr, (extraction_serialized _ hr).1⟩
